import Mathlib

/-!
Verification development for the spec-maestro core: the beads cache
(`src-tauri/src/cache/beads_cache.rs`), the DAG builder
(`src-tauri/src/cache/dag.rs`) and the activity-stream supervisor
(`src-tauri/src/bd/activity.rs`), shallowly embedded in Lean.

JSON values (`serde_json::Value`) are modelled by the inductive `Json`;
numbers are modelled by `Int` (no claim depends on non-integer numbers).
Rust `HashMap<String, V>` is modelled by an association list together with
lookup/insert/remove operations whose extensional behaviour matches the
hash map; time (`Instant` / `DateTime<Utc>`) is modelled by `Nat` seconds,
and every fallible disk interaction is made explicit by threading the disk
contents (`Option SerializedCache`) and a `diskOk` success flag.
-/

/-- Model of `serde_json::Value`. Numbers are restricted to `Int`. -/
inductive Json where
  | null
  | bool (b : Bool)
  | num (n : Int)
  | str (s : String)
  | arr (elems : List Json)
  | obj (fields : List (String × Json))

namespace AssocMap

/-- Model of `HashMap::get` (first matching key). -/
def lookup (m : List (String × α)) (k : String) : Option α :=
  match m with
  | [] => none
  | (k', v) :: rest => if k' = k then some v else lookup rest k

/-- Model of `HashMap::contains_key`. -/
def contains (m : List (String × α)) (k : String) : Bool :=
  (lookup m k).isSome

/-- Model of `HashMap::remove` (drops every binding of the key). -/
def remove (k : String) : List (String × α) → List (String × α)
  | [] => []
  | p :: rest => if p.1 = k then remove k rest else p :: remove k rest

/-- Model of `HashMap::insert`: replaces any binding of the key. -/
def insert (k : String) (v : α) (m : List (String × α)) : List (String × α) :=
  remove k m ++ [(k, v)]

/-- Model of `Iterator::collect::<HashMap<_, _>>()`: later entries win. -/
def ofList (l : List (String × α)) : List (String × α) :=
  l.foldl (fun m p => insert p.1 p.2 m) []

theorem lookup_remove_ne (m : List (String × α)) (k k' : String) (h : k' ≠ k) :
    lookup (remove k m) k' = lookup m k' := by
  induction m with
  | nil => rfl
  | cons p rest ih =>
    by_cases hk : p.1 = k
    · have hne : ¬ p.1 = k' := fun hh => h (hh ▸ hk)
      simp only [remove, if_pos hk, lookup, if_neg hne, ih]
    · simp only [remove, if_neg hk, lookup, ih]

theorem lookup_insert_ne (m : List (String × α)) (k k' : String) (v : α) (h : k' ≠ k) :
    lookup (insert k v m) k' = lookup m k' := by
  have happ : lookup (remove k m ++ [(k, v)]) k' = lookup (remove k m) k' := by
    induction remove k m with
    | nil => simp only [List.nil_append, lookup, if_neg (Ne.symm h)]
    | cons p rest ih =>
      by_cases hk' : p.1 = k'
      · simp [lookup, hk']
      · simp [lookup, hk', ih]
  rw [insert, happ, lookup_remove_ne m k k' h]

theorem remove_of_lookup_none (m : List (String × α)) (k : String)
    (h : lookup m k = none) : remove k m = m := by
  induction m with
  | nil => rfl
  | cons p rest ih =>
    by_cases hk : p.1 = k
    · simp [lookup, hk] at h
    · simp only [lookup, if_neg hk] at h
      simp [remove, hk, ih h]

theorem lookup_isSome_of_mem (m : List (String × α)) (k : String) (v : α)
    (h : (k, v) ∈ m) : (lookup m k).isSome = true := by
  induction m with
  | nil => simp at h
  | cons p rest ih =>
    rcases List.mem_cons.mp h with h | h
    · simp [lookup, ← h]
    · by_cases hk : p.1 = k
      · simp [lookup, hk]
      · simpa [lookup, hk] using ih h

end AssocMap

/-- `bd::types::Issue` (src-tauri/src/bd/types.rs). `priority` keeps the raw
JSON value, `dependencies` keeps raw JSON values (strings or objects), and
`extra` is the serde-flattened bag of unrecognized fields. -/
structure Issue where
  id : String
  title : String
  status : String
  priority : Option Json
  labels : List String
  dependencies : List Json
  assignee : Option String
  owner : Option String
  issue_type : Option String
  extra : List (String × Json)

/-- `Value::as_str`. -/
def Json.asStr : Json → Option String
  | .str s => some s
  | _ => none

/-- The dependency-id extraction: a bare string, or an object's `id`
field. This body appears twice in the source, as `Issue::dependency_ids`
(types.rs) and inline in `DagBuilder::build_dag` (dag.rs). -/
def dependencyIdOf (v : Json) : Option String :=
  match v with
  | .str s => some s
  | .obj fields => (AssocMap.lookup fields "id").bind Json.asStr
  | _ => none

/-- `Issue::dependency_ids` (types.rs). -/
def Issue.dependency_ids (i : Issue) : List String :=
  i.dependencies.filterMap dependencyIdOf

/-- `Issue::effective_assignee` (types.rs). -/
def Issue.effective_assignee (i : Issue) : Option String :=
  i.assignee.or i.owner

/-- `bd::types::Gate`. -/
structure Gate where
  id : String
  issue_id : String
  gate_type : String
  status : String
  reason : Option String
  extra : List (String × Json)

/-- `bd::types::EpicStatus`. The Rust field `open` is a Lean keyword and is
rendered `open_count`. -/
structure EpicStatus where
  id : String
  title : String
  total : Nat
  open_count : Nat
  closed : Nat
  in_progress : Nat
  blocked : Nat
  extra : List (String × Json)

/-- `bd::types::ActivityEvent`: a decoded line of the activity stream. -/
structure ActivityEvent where
  event_type : String
  issue_id : Option String
  gate_id : Option String
  timestamp : String
  extra : List (String × Json)

/-- `cache::beads_cache::CacheError`. -/
inductive CacheError where
  | IoError (msg : String)
  | SerializationError (msg : String)
  | DeserializationError (msg : String)
  | StaleCache (msg : String)
  | DagBuildError (msg : String)

/-- Decoder for an optional string field as serde derives it for
`Option<String>`: a missing field or explicit `null` is `none`, a string is
`some`, anything else is a decode error (outer `none`). -/
def decodeOptStrField (fields : List (String × Json)) (k : String) :
    Option (Option String) :=
  match AssocMap.lookup fields k with
  | none => some none
  | some .null => some none
  | some (.str s) => some (some s)
  | some _ => none

/-- Decoder for a required string field. -/
def decodeStrField (fields : List (String × Json)) (k : String) : Option String :=
  (AssocMap.lookup fields k).bind Json.asStr

/-- Decoder for `Vec<String>`: every element must be a string. -/
def decodeStrList (elems : List Json) : Option (List String) :=
  elems.foldr
    (fun j acc =>
      match j.asStr, acc with
      | some s, some rest => some (s :: rest)
      | _, _ => none)
    (some [])

/-- Field names serde recognizes on `Issue`; everything else is flattened
into `extra`. -/
def issueKnownFields : List String :=
  ["id", "title", "status", "priority", "labels", "dependencies",
   "assignee", "owner", "issue_type"]

/-- Model of `serde_json::from_value::<Issue>`: `id`, `title`, `status` are
required strings; `priority` keeps any non-null value; `labels` and
`dependencies` default to empty; `assignee`, `owner`, `issue_type` are
optional strings; unknown fields are collected into `extra`. -/
def decodeIssue (j : Json) : Option Issue :=
  match j with
  | .obj fields => do
    let id ← decodeStrField fields "id"
    let title ← decodeStrField fields "title"
    let status ← decodeStrField fields "status"
    let priority : Option Json :=
      (AssocMap.lookup fields "priority").bind
        (fun v => match v with | .null => none | v' => some v')
    let labels ← match AssocMap.lookup fields "labels" with
      | none => some []
      | some (.arr elems) => decodeStrList elems
      | some _ => none
    let dependencies ← match AssocMap.lookup fields "dependencies" with
      | none => some []
      | some (.arr elems) => some elems
      | some _ => none
    let assignee ← decodeOptStrField fields "assignee"
    let owner ← decodeOptStrField fields "owner"
    let issue_type ← decodeOptStrField fields "issue_type"
    let extra := fields.filter (fun p => !(issueKnownFields.contains p.1))
    some { id, title, status, priority, labels, dependencies,
           assignee, owner, issue_type, extra }
  | _ => none

/-- Field names serde recognizes on `Gate`. -/
def gateKnownFields : List String :=
  ["id", "issue_id", "gate_type", "status", "reason"]

/-- Model of `serde_json::from_value::<Gate>`. -/
def decodeGate (j : Json) : Option Gate :=
  match j with
  | .obj fields => do
    let id ← decodeStrField fields "id"
    let issue_id ← decodeStrField fields "issue_id"
    let gate_type ← decodeStrField fields "gate_type"
    let status ← decodeStrField fields "status"
    let reason ← decodeOptStrField fields "reason"
    let extra := fields.filter (fun p => !(gateKnownFields.contains p.1))
    some { id, issue_id, gate_type, status, reason, extra }
  | _ => none

/-- `STALE_DURATION` (beads_cache.rs): 30 seconds. -/
def STALE_DURATION : Nat := 30

/-- The 60-second load-freshness window hard-coded in
`BeadsCache::load_from_disk`. -/
def LOAD_FRESHNESS : Nat := 60

/-- `cache::beads_cache::BeadsCache`: the in-memory state. `Instant` is a
`Nat` point in time. -/
structure BeadsCache where
  issues : List (String × Issue)
  gates : List (String × Gate)
  epics : List (String × EpicStatus)
  last_full_sync : Nat
  cache_file_path : String

/-- `cache::beads_cache::SerializedCache`: what `save_to_disk` writes. -/
structure SerializedCache where
  issues : List (String × Issue)
  gates : List (String × Gate)
  epics : List (String × EpicStatus)
  last_full_sync : Nat

/-- The cache together with the persisted file (`None` = no readable,
well-formed cache file). Disk I/O is made explicit through this state. -/
structure Sys where
  cache : BeadsCache
  disk : Option SerializedCache

/-- `BeadsCache::save_to_disk`: serializes the maps with the current wall
clock and overwrites the cache file; `diskOk = false` models a failing
directory-creation or file write, which leaves the file as it was and
surfaces `CacheError::IoError`. -/
def save_to_disk (c : BeadsCache) (now : Nat) (diskOk : Bool)
    (disk : Option SerializedCache) :
    Except CacheError Unit × Option SerializedCache :=
  if diskOk then
    (Except.ok (),
     some { issues := c.issues, gates := c.gates, epics := c.epics,
            last_full_sync := now })
  else
    (Except.error (CacheError.IoError "Failed to write cache"), disk)

/-- `BeadsCache::full_refresh`: rebuilds the three maps from the given
lists (collect-into-HashMap keyed by each entity's own id), stamps
`last_full_sync`, then persists. The Rust method mutates `self` before the
fallible `save_to_disk().await?`, so the returned state carries the new
maps whether or not the write succeeded. -/
def full_refresh (s : Sys) (now : Nat) (diskOk : Bool)
    (issues : List Issue) (gates : List Gate) (epics : List EpicStatus) :
    Except CacheError Unit × Sys :=
  let issues_map := AssocMap.ofList (issues.map (fun i => (i.id, i)))
  let gates_map := AssocMap.ofList (gates.map (fun g => (g.id, g)))
  let epics_map := AssocMap.ofList (epics.map (fun e => (e.id, e)))
  let c' : BeadsCache :=
    { issues := issues_map, gates := gates_map, epics := epics_map,
      last_full_sync := now, cache_file_path := s.cache.cache_file_path }
  let (r, disk') := save_to_disk c' now diskOk s.disk
  (r, { cache := c', disk := disk' })

/-- `BeadsCache::apply_event`: dispatch on the event-kind string; always
returns `Ok(())`. -/
def apply_event (c : BeadsCache) (e : ActivityEvent) :
    Except CacheError Unit × BeadsCache :=
  if e.event_type = "issue.created" ∨ e.event_type = "issue.updated" then
    match e.issue_id with
    | some issue_id =>
      match AssocMap.lookup e.extra "issue" with
      | some issue_data =>
        match decodeIssue issue_data with
        | some issue =>
          (Except.ok (), { c with issues := AssocMap.insert issue_id issue c.issues })
        | none => (Except.ok (), c)
      | none => (Except.ok (), c)
    | none => (Except.ok (), c)
  else if e.event_type = "issue.deleted" then
    match e.issue_id with
    | some issue_id =>
      (Except.ok (), { c with issues := AssocMap.remove issue_id c.issues })
    | none => (Except.ok (), c)
  else if e.event_type = "gate.created" ∨ e.event_type = "gate.updated" then
    match e.gate_id with
    | some gate_id =>
      match AssocMap.lookup e.extra "gate" with
      | some gate_data =>
        match decodeGate gate_data with
        | some gate =>
          (Except.ok (), { c with gates := AssocMap.insert gate_id gate c.gates })
        | none => (Except.ok (), c)
      | none => (Except.ok (), c)
    | none => (Except.ok (), c)
  else if e.event_type = "gate.deleted" then
    match e.gate_id with
    | some gate_id =>
      (Except.ok (), { c with gates := AssocMap.remove gate_id c.gates })
    | none => (Except.ok (), c)
  else
    (Except.ok (), c)

/-- `apply_event` lifted to the system state: it performs no disk I/O. -/
def apply_event_sys (s : Sys) (e : ActivityEvent) : Except CacheError Unit × Sys :=
  let (r, c') := apply_event s.cache e
  (r, { cache := c', disk := s.disk })

/-- The status bucket used by `BeadsCache::get_stats`. -/
inductive StatusBucket where
  | bOpen
  | bInProgress
  | bClosed
  | bBlocked
  | bOther
deriving DecidableEq

/-- The `match issue.status.to_lowercase().as_str()` arms of `get_stats`. -/
def statusBucket (status : String) : StatusBucket :=
  let s := status.toLower
  if s = "open" ∨ s = "todo" ∨ s = "backlog" then .bOpen
  else if s = "in progress" ∨ s = "in_progress" ∨ s = "doing" then .bInProgress
  else if s = "closed" ∨ s = "done" ∨ s = "completed" then .bClosed
  else if s = "blocked" then .bBlocked
  else .bOther

/-- `cache::beads_cache::CacheStats`. The Rust field `open` is a Lean
keyword and is rendered `open_count`. -/
structure CacheStats where
  total_issues : Nat
  open_count : Nat
  closed : Nat
  in_progress : Nat
  blocked : Nat
  pending_gates : Nat
  last_sync : String

/-- The pending-gate filter shared by `get_pending_gates` and `get_stats`:
`status == "pending" || status == "blocked"`. -/
def gateIsPending (g : Gate) : Bool :=
  g.status == "pending" || g.status == "blocked"

/-- `BeadsCache::get_stats`: one pass over the issue values bumping a
counter per bucket (unmatched statuses fall through uncounted), the
pending-gate count, and the total map size. -/
def get_stats (c : BeadsCache) (now : Nat) : CacheStats :=
  let vals := c.issues.map (fun p => p.2)
  { total_issues := c.issues.length
    open_count := vals.countP (fun i => statusBucket i.status = .bOpen)
    closed := vals.countP (fun i => statusBucket i.status = .bClosed)
    in_progress := vals.countP (fun i => statusBucket i.status = .bInProgress)
    blocked := vals.countP (fun i => statusBucket i.status = .bBlocked)
    pending_gates := (c.gates.map (fun p => p.2)).countP gateIsPending
    last_sync := toString (now - c.last_full_sync) }

/-- The count of issues whose status matches none of the four recognized
buckets (the `_ => {}` arm of `get_stats`): the uncategorized items. -/
def uncategorizedCount (c : BeadsCache) : Nat :=
  (c.issues.map (fun p => p.2)).countP (fun i => statusBucket i.status = .bOther)

/-- `BeadsCache::is_stale`: elapsed time since `last_full_sync` exceeds 30
seconds. -/
def is_stale (c : BeadsCache) (now : Nat) : Bool :=
  decide (now - c.last_full_sync > STALE_DURATION)

/-- `BeadsCache::list_issues`: clone out all map values. -/
def list_issues (c : BeadsCache) : List Issue :=
  c.issues.map (fun p => p.2)

/-- `BeadsCache::load_from_disk`: fails when the file is missing or
unreadable, and rejects a readable file whose recorded timestamp is more
than 60 seconds in the past. -/
def load_from_disk (disk : Option SerializedCache) (now : Nat) :
    Except CacheError SerializedCache :=
  match disk with
  | none => Except.error (CacheError.IoError "Failed to read cache")
  | some d =>
    if d.last_full_sync + LOAD_FRESHNESS < now then
      Except.error (CacheError.StaleCache "Cache is too old")
    else
      Except.ok d

/-- `BeadsCache::new`: rehydrate from disk when the file loads, otherwise
start empty; either way `last_full_sync` is `Instant::now()`, the moment
of construction. -/
def BeadsCache.new (path : String) (disk : Option SerializedCache) (now : Nat) :
    BeadsCache :=
  match load_from_disk disk now with
  | Except.ok cached =>
    { issues := cached.issues, gates := cached.gates, epics := cached.epics,
      last_full_sync := now, cache_file_path := path }
  | Except.error _ =>
    { issues := [], gates := [], epics := [],
      last_full_sync := now, cache_file_path := path }

/-- `cache::dag::NodeType`. -/
inductive NodeType where
  | Epic
  | Task
  | Review
  | Gate
  | PmValidation
deriving DecidableEq

/-- `cache::dag::EdgeType`. -/
inductive EdgeType where
  | Blocks
  | RelatesTo
deriving DecidableEq

/-- `cache::dag::DagNode`. -/
structure DagNode where
  id : String
  title : String
  node_type : NodeType
  status : String
  assignee : Option String
  session_id : Option String
  task_status : Option String

/-- `cache::dag::DagEdge`. -/
structure DagEdge where
  source : String
  target : String
  edge_type : EdgeType

/-- `cache::dag::DagGraph`. -/
structure DagGraph where
  nodes : List DagNode
  edges : List DagEdge

/-- `cache::dag::DagBuilder`: a read-only view of the three maps. -/
structure DagBuilder where
  issues : List (String × Issue)
  gates : List (String × Gate)
  epics : List (String × EpicStatus)

/-- Containment of one character list in another, mirroring
`str::contains` for the label checks. -/
def charsHaveSub (hay pat : List Char) : Bool :=
  pat.isPrefixOf hay ||
    match hay with
    | [] => false
    | _ :: t => charsHaveSub t pat

/-- `str::contains(pat)` on strings. -/
def strContainsSub (s pat : String) : Bool :=
  charsHaveSub s.toList pat.toList

/-- The label scan of `DagBuilder::infer_node_type`: the first label whose
lowercase form contains `review`, `gate`, `pm-validation` or
`pm validation` decides the node type. -/
def inferFromLabels : List String → Option NodeType
  | [] => none
  | l :: rest =>
    let ll := l.toLower
    if strContainsSub ll "review" then some .Review
    else if strContainsSub ll "gate" then some .Gate
    else if strContainsSub ll "pm-validation" || strContainsSub ll "pm validation" then
      some .PmValidation
    else inferFromLabels rest

/-- `DagBuilder::infer_node_type`: labels first, then the declared
`issue_type`, defaulting to `Task`. -/
def infer_node_type (issue : Issue) : NodeType :=
  match inferFromLabels issue.labels with
  | some t => t
  | none =>
    match issue.issue_type with
    | some "Epic" => NodeType.Epic
    | some "Gate" => NodeType.Gate
    | _ => NodeType.Task

/-- `Option::is_some_and(.. == Some(&json!(epic_id)))` in the last arm of
`is_issue_in_epic`: the stored value equals the JSON string `epic_id`. -/
def jsonEqStr (j : Json) (s : String) : Bool :=
  match j with
  | .str t => t == s
  | _ => false

/-- `DagBuilder::is_issue_in_epic`: an early return on a string-valued
`epic_id` field, then on a string-valued `parent` field, then the
epics-map fallback comparison. -/
def is_issue_in_epic (b : DagBuilder) (issue : Issue) (epic_id : String) : Bool :=
  match (AssocMap.lookup issue.extra "epic_id").bind Json.asStr with
  | some epic => epic == epic_id
  | none =>
    match (AssocMap.lookup issue.extra "parent").bind Json.asStr with
    | some epic => epic == epic_id
    | none =>
      (AssocMap.lookup b.epics epic_id).isSome &&
        (match AssocMap.lookup issue.extra "epic_id" with
         | some v => jsonEqStr v epic_id
         | none => false)

/-- The dependency edges `build_dag` pushes while processing one issue: an
edge from the dependency to the issue, only when the dependency id is a
key of the issues map. -/
def depEdgesFor (issues : List (String × Issue)) (issue : Issue) : List DagEdge :=
  issue.dependencies.filterMap (fun v =>
    match dependencyIdOf v with
    | some dep_id =>
      if AssocMap.contains issues dep_id then
        some { source := dep_id, target := issue.id, edge_type := EdgeType.Blocks }
      else
        none
    | none => none)

/-- The `Issue::default`-like placeholder `build_dag` substitutes when a
gate's `issue_id` is not a key of the issues map. -/
def unknownGateIssue : Issue :=
  { id := "", title := "", status := "", priority := none, labels := [],
    dependencies := [], assignee := none, owner := none, issue_type := none,
    extra := [] }

/-- Whether `build_dag` includes a gate: its owning issue (or the empty
placeholder) must belong to the epic. -/
def gateInScope (b : DagBuilder) (epic_id : String) (g : Gate) : Bool :=
  is_issue_in_epic b ((AssocMap.lookup b.issues g.issue_id).getD unknownGateIssue) epic_id

/-- The gate nodes `build_dag` pushes. -/
def gateNodesOf (b : DagBuilder) (epic_id : String) : List DagNode :=
  (b.gates.map (fun p => p.2)).filterMap (fun g =>
    if gateInScope b epic_id g then
      some { id := g.id, title := "Gate: " ++ g.gate_type,
             node_type := NodeType.Gate, status := g.status,
             assignee := none, session_id := none, task_status := none }
    else
      none)

/-- The gate edges `build_dag` pushes: owning issue → gate, only when the
owning issue id is a key of the issues map. -/
def gateEdgesOf (b : DagBuilder) (epic_id : String) : List DagEdge :=
  (b.gates.map (fun p => p.2)).filterMap (fun g =>
    if gateInScope b epic_id g && AssocMap.contains b.issues g.issue_id then
      some { source := g.issue_id, target := g.id, edge_type := EdgeType.Blocks }
    else
      none)

/-- The `epic_issues` filter of `build_dag`: the issue is tagged to the
epic, or it is the epic itself (type `Epic` with matching id). -/
def epicIssuesOf (b : DagBuilder) (epic_id : String) : List Issue :=
  (b.issues.map (fun p => p.2)).filter (fun issue =>
    is_issue_in_epic b issue epic_id ||
      (issue.issue_type == some "Epic" && issue.id == epic_id))

/-- The node `build_dag` builds from one member issue. -/
def issueNodeOf (issue : Issue) : DagNode :=
  { id := issue.id, title := issue.title, node_type := infer_node_type issue,
    status := issue.status, assignee := issue.effective_assignee,
    session_id := none, task_status := none }

/-- The epic's own node when the epic id is a key of the issues map. -/
def epicNodeOf (b : DagBuilder) (epic_id : String) : List DagNode :=
  match AssocMap.lookup b.issues epic_id with
  | some epic_issue =>
    [{ id := epic_issue.id, title := epic_issue.title,
       node_type := NodeType.Epic, status := epic_issue.status,
       assignee := epic_issue.effective_assignee,
       session_id := none, task_status := none }]
  | none => []

/-- `DagBuilder::build_dag`: epic node, member nodes with their dependency
edges, then gate nodes and edges; always returns `Ok`. -/
def build_dag (b : DagBuilder) (epic_id : String) : Except String DagGraph :=
  let epic_issues := epicIssuesOf b epic_id
  Except.ok
    { nodes := epicNodeOf b epic_id ++ epic_issues.map issueNodeOf ++ gateNodesOf b epic_id
      edges := epic_issues.flatMap (depEdgesFor b.issues) ++ gateEdgesOf b epic_id }

/-- `INITIAL_BACKOFF` (activity.rs), in seconds. -/
def INITIAL_BACKOFF : Nat := 1

/-- `MAX_BACKOFF` (activity.rs), in seconds. -/
def MAX_BACKOFF : Nat := 30

/-- `BACKOFF_MULTIPLIER` (activity.rs). -/
def BACKOFF_MULTIPLIER : Nat := 2

/-- Outcome of one `ActivityStream::run_stream` cycle, as seen by the loop
in `ActivityStream::start`. `chanClosed` is the
`Err(DaemonError("Activity event channel closed"))` returned when
`sender.send` fails because the receiver was dropped (activity.rs lines
187-193); `crashed` is any other `Err` (spawn failure, parse-error
ceiling, non-zero exit, wait timeout); `endedCleanly` is `Ok(())`. -/
inductive RunOutcome where
  | endedCleanly
  | chanClosed
  | crashed
deriving DecidableEq

/-- Whether the outcome is the `Err` arm of `if let Err(e) = run_stream`. -/
def RunOutcome.isErr : RunOutcome → Bool
  | .endedCleanly => false
  | .chanClosed => true
  | .crashed => true

/-- Observable trace of the supervisor loop: how many times `run_stream`
was invoked (one process spawn each), the backoff sleeps performed in
order, and whether the loop terminated (rather than running out of the
supplied outcome script). -/
structure SupervisorTrace where
  spawns : Nat
  waits : List Nat
  stopped : Bool

/-- The `tokio::spawn` loop of `ActivityStream::start`: on an error
outcome it counts the consecutive error, sleeps the current backoff,
doubles the backoff capped at `MAX_BACKOFF`, stops for good once the
consecutive-error count exceeds 10, and otherwise runs the stream again;
on a clean end it breaks. The list supplies the outcome of each
successive `run_stream` call. -/
def supervisorLoop : List RunOutcome → Nat → Nat → SupervisorTrace
  | [], _, _ => { spawns := 0, waits := [], stopped := false }
  | o :: rest, backoff, consecutive_errors =>
    if o.isErr then
      let consecutive_errors' := consecutive_errors + 1
      let backoff' := min (backoff * BACKOFF_MULTIPLIER) MAX_BACKOFF
      if consecutive_errors' > 10 then
        { spawns := 1, waits := [backoff], stopped := true }
      else
        let t := supervisorLoop rest backoff' consecutive_errors'
        { spawns := 1 + t.spawns, waits := backoff :: t.waits, stopped := t.stopped }
    else
      { spawns := 1, waits := [], stopped := true }

/-- `ActivityStream::start`: the loop begins with `INITIAL_BACKOFF` and a
zero consecutive-error count. -/
def ActivityStream.start (outcomes : List RunOutcome) : SupervisorTrace :=
  supervisorLoop outcomes INITIAL_BACKOFF 0

/-! Concrete fixtures used by witnesses and counterexamples. -/

/-- A minimal work item. -/
def issueA : Issue :=
  { id := "TASK-1", title := "Task 1", status := "open", priority := none,
    labels := [], dependencies := [], assignee := none, owner := none,
    issue_type := some "Task", extra := [] }

/-- A second work item with a different id. -/
def issueB : Issue :=
  { id := "TASK-2", title := "Task 2", status := "closed", priority := none,
    labels := [], dependencies := [], assignee := none, owner := none,
    issue_type := some "Task", extra := [] }

/-- A system whose cache and disk are both empty. -/
def sys0 : Sys :=
  { cache := { issues := [], gates := [], epics := [], last_full_sync := 0,
               cache_file_path := "cache.json" },
    disk := none }

/-- C5: every `run_stream` failure is followed by a sleep of the current
backoff, the backoff doubles from 1 capped at 30, and the supervisor
spawns the process exactly 11 times before stopping for good, whatever
would come after. The sleeps are 1, 2, 4, 8, 16 and then 30 forever; the
first ten precede restart attempts, the eleventh precedes the permanent
stop triggered by the consecutive-error count exceeding 10. -/
theorem supervisor_backoff_sequence (rest : List RunOutcome) :
    ActivityStream.start (List.replicate 11 RunOutcome.crashed ++ rest) =
      { spawns := 11,
        waits := [1, 2, 4, 8, 16, 30, 30, 30, 30, 30, 30],
        stopped := true } := by
  rfl

/-- C2 counterexample: a run cycle that fails because the event channel is
closed is followed by a second process spawn — the supervisor does not
stop permanently on a channel-closed send failure. -/
theorem supervisor_restarts_after_channel_closed_cex :
    (ActivityStream.start [RunOutcome.chanClosed, RunOutcome.crashed]).spawns = 2 := by
  rfl

/-- C2 amended: a channel-closed send failure ends the current run cycle
with an error, but the outer loop treats it exactly like any other error —
it backs off and restarts, stopping permanently only once more than 10
consecutive errors have accumulated (11 spawns when every cycle fails this
way). -/
theorem channel_closed_treated_as_error (rest : List RunOutcome)
    (backoff consecutive_errors : Nat) :
    supervisorLoop (RunOutcome.chanClosed :: rest) backoff consecutive_errors =
      supervisorLoop (RunOutcome.crashed :: rest) backoff consecutive_errors ∧
    (ActivityStream.start (List.replicate 11 RunOutcome.chanClosed)).stopped = true ∧
    (ActivityStream.start (List.replicate 11 RunOutcome.chanClosed)).spawns = 11 :=
  ⟨rfl, rfl, rfl⟩

/-- The snapshot of C9: the grouping id itself is stored as an issue whose
type tag is `Epic`. -/
def epicSelfIssue : Issue :=
  { id := "EPIC-1", title := "Epic", status := "open", priority := none,
    labels := [], dependencies := [], assignee := none, owner := none,
    issue_type := some "Epic", extra := [] }

/-- The builder of C9. -/
def builder9 : DagBuilder :=
  { issues := [("EPIC-1", epicSelfIssue)], gates := [], epics := [] }

/-- C9: node identifiers are not unique — when the grouping id is stored
as an issue of type `Epic`, `build_dag` adds its node twice, once as the
grouping's own node and once as a matching member of the grouping. -/
theorem build_dag_duplicate_epic_node :
    ∃ g, build_dag builder9 "EPIC-1" = Except.ok g ∧
      g.nodes.map (fun n => n.id) = ["EPIC-1", "EPIC-1"] :=
  ⟨_, rfl, rfl⟩

/-- C1 counterexample: a full refresh whose disk write fails reports an
error, yet the in-memory state is not what it was before the call — the
maps and the timestamp were already replaced. -/
theorem full_refresh_not_atomic_cex :
    (full_refresh sys0 5 false [issueA] [] []).1 =
      Except.error (CacheError.IoError "Failed to write cache") ∧
    (full_refresh sys0 5 false [issueA] [] []).2.cache.issues ≠ sys0.cache.issues ∧
    (full_refresh sys0 5 false [issueA] [] []).2.cache.last_full_sync ≠
      sys0.cache.last_full_sync := by
  refine ⟨rfl, ?_, by decide⟩
  intro h
  have hlen : (1 : Nat) = 0 := congrArg List.length h
  exact absurd hlen (by decide)

/-- C1 amended: `full_refresh` replaces the three in-memory maps and
`last_full_sync` unconditionally — before the disk write is attempted — so
the new snapshot takes effect even when the write fails; the call reports
success exactly when the durable write succeeded, and only then is the
file replaced. -/
theorem full_refresh_mutates_then_persists (s : Sys) (now : Nat) (diskOk : Bool)
    (issues : List Issue) (gates : List Gate) (epics : List EpicStatus) :
    (full_refresh s now diskOk issues gates epics).2.cache.issues =
      AssocMap.ofList (issues.map (fun i => (i.id, i))) ∧
    (full_refresh s now diskOk issues gates epics).2.cache.gates =
      AssocMap.ofList (gates.map (fun g => (g.id, g))) ∧
    (full_refresh s now diskOk issues gates epics).2.cache.epics =
      AssocMap.ofList (epics.map (fun e => (e.id, e))) ∧
    (full_refresh s now diskOk issues gates epics).2.cache.last_full_sync = now ∧
    (full_refresh s now diskOk issues gates epics).1 =
      (if diskOk then Except.ok ()
       else Except.error (CacheError.IoError "Failed to write cache")) ∧
    (full_refresh s now diskOk issues gates epics).2.disk =
      (if diskOk then
        some { issues := AssocMap.ofList (issues.map (fun i => (i.id, i))),
               gates := AssocMap.ofList (gates.map (fun g => (g.id, g))),
               epics := AssocMap.ofList (epics.map (fun e => (e.id, e))),
               last_full_sync := now }
       else s.disk) := by
  cases diskOk <;> simp [full_refresh, save_to_disk]

/-- The persisted file of the C10 witness: recorded 60 seconds before the
load. -/
def diskFile10 : SerializedCache :=
  { issues := [("TASK-1", issueA)], gates := [], epics := [],
    last_full_sync := 0 }

/-- C10: when the store rehydrates a persisted file inside the 60-second
load window, `last_full_sync` becomes the moment of loading (not the
file's recorded timestamp), the loaded maps are kept, and `is_stale` is
false immediately after startup. -/
theorem new_rehydrate_resets_sync (path : String) (d : SerializedCache) (now : Nat)
    (hfresh : ¬ d.last_full_sync + LOAD_FRESHNESS < now) :
    (BeadsCache.new path (some d) now).last_full_sync = now ∧
    (BeadsCache.new path (some d) now).issues = d.issues ∧
    is_stale (BeadsCache.new path (some d) now) now = false := by
  simp [BeadsCache.new, load_from_disk, hfresh, is_stale, STALE_DURATION]

/-- C10 witness: a file recorded at time 0 loaded at time 60 — exactly 60
seconds old — is rehydrated, and the store is immediately not stale. -/
theorem new_rehydrate_resets_sync_witness :
    (BeadsCache.new "p" (some diskFile10) 60).last_full_sync = 60 ∧
    (BeadsCache.new "p" (some diskFile10) 60).issues = diskFile10.issues ∧
    is_stale (BeadsCache.new "p" (some diskFile10) 60) 60 = false :=
  new_rehydrate_resets_sync "p" diskFile10 60 (by decide)

/-- C7: a successful full refresh with items `[A, B]` (distinct ids) and
empty gate and group lists reports success, makes `list_issues` return
exactly `{A, B}` whatever the store held before, and leaves the store
immediately not stale. -/
theorem full_refresh_then_list_issues (s : Sys) (now : Nat) (A B : Issue)
    (hAB : A.id ≠ B.id) :
    (full_refresh s now true [A, B] [] []).1 = Except.ok () ∧
    (∀ x, x ∈ list_issues (full_refresh s now true [A, B] [] []).2.cache ↔
      (x = A ∨ x = B)) ∧
    is_stale (full_refresh s now true [A, B] [] []).2.cache now = false := by
  have hissues : (full_refresh s now true [A, B] [] []).2.cache.issues =
      [(A.id, A), (B.id, B)] := by
    simp [full_refresh, save_to_disk, AssocMap.ofList, AssocMap.insert,
      AssocMap.remove, hAB]
  refine ⟨rfl, ?_, ?_⟩
  · intro x
    rw [list_issues, hissues]
    simp
  · simp [is_stale, full_refresh, save_to_disk, STALE_DURATION]

/-- C7 witness: refreshing the empty system with the two concrete items. -/
theorem full_refresh_then_list_issues_witness :
    (full_refresh sys0 7 true [issueA, issueB] [] []).1 = Except.ok () ∧
    (issueA ∈ list_issues (full_refresh sys0 7 true [issueA, issueB] [] []).2.cache ↔
      (issueA = issueA ∨ issueA = issueB)) ∧
    is_stale (full_refresh sys0 7 true [issueA, issueB] [] []).2.cache 7 = false :=
  ⟨(full_refresh_then_list_issues sys0 7 issueA issueB (by decide)).1,
   (full_refresh_then_list_issues sys0 7 issueA issueB (by decide)).2.1 issueA,
   (full_refresh_then_list_issues sys0 7 issueA issueB (by decide)).2.2⟩

/-- Every issue falls in exactly one of the five status buckets, so the
five per-bucket counts sum to the number of issues. -/
theorem countP_statusBucket_sum (l : List Issue) :
    l.countP (fun i => statusBucket i.status = .bOpen) +
    l.countP (fun i => statusBucket i.status = .bInProgress) +
    l.countP (fun i => statusBucket i.status = .bClosed) +
    l.countP (fun i => statusBucket i.status = .bBlocked) +
    l.countP (fun i => statusBucket i.status = .bOther) = l.length := by
  induction l with
  | nil => rfl
  | cons i rest ih =>
    simp only [List.countP_cons, List.length_cons]
    rcases h : statusBucket i.status <;> simp [h] <;> omega

/-- C4: `get_stats` buckets every item's status (after lowercasing) into
exactly one of open, in-progress, closed, blocked or uncategorized, so the
four reported counts plus the uncategorized count always equal the
reported total, and the stats also report the number of gates awaiting
human action (status `pending` or `blocked`). -/
theorem get_stats_partitions (c : BeadsCache) (now : Nat) :
    (get_stats c now).open_count + (get_stats c now).in_progress +
      (get_stats c now).closed + (get_stats c now).blocked +
      uncategorizedCount c = (get_stats c now).total_issues ∧
    (get_stats c now).total_issues = c.issues.length ∧
    (get_stats c now).pending_gates =
      (c.gates.map (fun p => p.2)).countP gateIsPending := by
  refine ⟨?_, rfl, rfl⟩
  have hsum := countP_statusBucket_sum (c.issues.map (fun p => p.2))
  simp only [get_stats, uncategorizedCount, List.length_map] at hsum ⊢
  omega

/-- Shape of `apply_event` on a created/updated issue event whose embedded
payload decodes: upsert under the event's `issue_id`. -/
theorem apply_event_issue_upsert_eq (c : BeadsCache) (e : ActivityEvent)
    (iid : String) (j : Json) (it : Issue)
    (hk : e.event_type = "issue.created" ∨ e.event_type = "issue.updated")
    (hi : e.issue_id = some iid) (hj : AssocMap.lookup e.extra "issue" = some j)
    (hd : decodeIssue j = some it) :
    apply_event c e =
      (Except.ok (), { c with issues := AssocMap.insert iid it c.issues }) := by
  unfold apply_event
  rw [if_pos hk, hi, hj]
  simp only [hd]

/-- Shape of `apply_event` on a created/updated issue event whose embedded
payload fails to decode: no change. -/
theorem apply_event_issue_decode_fail_eq (c : BeadsCache) (e : ActivityEvent)
    (iid : String) (j : Json)
    (hk : e.event_type = "issue.created" ∨ e.event_type = "issue.updated")
    (hi : e.issue_id = some iid) (hj : AssocMap.lookup e.extra "issue" = some j)
    (hd : decodeIssue j = none) :
    apply_event c e = (Except.ok (), c) := by
  unfold apply_event
  rw [if_pos hk, hi, hj]
  simp only [hd]

/-- C3 counterexample: an `issue.created` event that embeds a perfectly
decodable work-item object under `issue` but carries no related issue id
is dropped — the store stays unchanged, so decodability of the embedded
payload alone does not make `apply_event` upsert. -/
theorem apply_event_missing_issue_id_cex :
    (decodeIssue (Json.obj [("id", Json.str "TASK-9"), ("title", Json.str "T"),
        ("status", Json.str "open")])).isSome = true ∧
    apply_event sys0.cache
      { event_type := "issue.created", issue_id := none, gate_id := none,
        timestamp := "t",
        extra := [("issue", Json.obj [("id", Json.str "TASK-9"),
          ("title", Json.str "T"), ("status", Json.str "open")])] } =
      (Except.ok (), sys0.cache) :=
  ⟨rfl, rfl⟩

/-- C3 amended: for a created/updated issue event that carries a related
issue id and embeds a payload under `issue`, `apply_event` reports
success; when the payload decodes, the decoded item is upserted under the
event's issue id; when decoding fails, the store is unchanged. -/
theorem apply_event_upsert_amended (c : BeadsCache) (e : ActivityEvent)
    (iid : String) (j : Json)
    (hk : e.event_type = "issue.created" ∨ e.event_type = "issue.updated")
    (hi : e.issue_id = some iid) (hj : AssocMap.lookup e.extra "issue" = some j) :
    (apply_event c e).1 = Except.ok () ∧
    (∀ it, decodeIssue j = some it →
      (apply_event c e).2 = { c with issues := AssocMap.insert iid it c.issues }) ∧
    (decodeIssue j = none → (apply_event c e).2 = c) := by
  refine ⟨?_, ?_, ?_⟩
  · cases hd : decodeIssue j with
    | none => rw [apply_event_issue_decode_fail_eq c e iid j hk hi hj hd]
    | some it => rw [apply_event_issue_upsert_eq c e iid j it hk hi hj hd]
  · intro it hd
    rw [apply_event_issue_upsert_eq c e iid j it hk hi hj hd]
  · intro hd
    rw [apply_event_issue_decode_fail_eq c e iid j hk hi hj hd]

/-- C3 witness: a concrete `issue.updated` event with issue id `TASK-1`
and a decodable payload is upserted; the same conclusion's decode-failure
arm is exercised by a second event whose payload is a bare string. -/
theorem apply_event_upsert_amended_witness :
    ((apply_event sys0.cache
        { event_type := "issue.updated", issue_id := some "TASK-1",
          gate_id := none, timestamp := "t",
          extra := [("issue", Json.obj [("id", Json.str "TASK-1"),
            ("title", Json.str "T"), ("status", Json.str "open")])] }).1 =
      Except.ok () ∧
     (∀ it, decodeIssue (Json.obj [("id", Json.str "TASK-1"),
        ("title", Json.str "T"), ("status", Json.str "open")]) = some it →
      (apply_event sys0.cache
        { event_type := "issue.updated", issue_id := some "TASK-1",
          gate_id := none, timestamp := "t",
          extra := [("issue", Json.obj [("id", Json.str "TASK-1"),
            ("title", Json.str "T"), ("status", Json.str "open")])] }).2 =
        { sys0.cache with
            issues := AssocMap.insert "TASK-1" it sys0.cache.issues }) ∧
     (decodeIssue (Json.obj [("id", Json.str "TASK-1"), ("title", Json.str "T"),
        ("status", Json.str "open")]) = none →
      (apply_event sys0.cache
        { event_type := "issue.updated", issue_id := some "TASK-1",
          gate_id := none, timestamp := "t",
          extra := [("issue", Json.obj [("id", Json.str "TASK-1"),
            ("title", Json.str "T"), ("status", Json.str "open")])] }).2 =
        sys0.cache)) ∧
    ((apply_event sys0.cache
        { event_type := "issue.updated", issue_id := some "TASK-1",
          gate_id := none, timestamp := "t",
          extra := [("issue", Json.str "garbage")] }).1 = Except.ok () ∧
     (∀ it, decodeIssue (Json.str "garbage") = some it →
      (apply_event sys0.cache
        { event_type := "issue.updated", issue_id := some "TASK-1",
          gate_id := none, timestamp := "t",
          extra := [("issue", Json.str "garbage")] }).2 =
        { sys0.cache with
            issues := AssocMap.insert "TASK-1" it sys0.cache.issues }) ∧
     (decodeIssue (Json.str "garbage") = none →
      (apply_event sys0.cache
        { event_type := "issue.updated", issue_id := some "TASK-1",
          gate_id := none, timestamp := "t",
          extra := [("issue", Json.str "garbage")] }).2 = sys0.cache)) :=
  ⟨apply_event_upsert_amended sys0.cache _ "TASK-1" _ (Or.inr rfl) rfl rfl,
   apply_event_upsert_amended sys0.cache _ "TASK-1" _ (Or.inr rfl) rfl rfl⟩

/-- Shape of `apply_event` on a created/updated issue event with no
related issue id: no change. -/
theorem apply_event_issue_noid_eq (c : BeadsCache) (e : ActivityEvent)
    (hk : e.event_type = "issue.created" ∨ e.event_type = "issue.updated")
    (hi : e.issue_id = none) :
    apply_event c e = (Except.ok (), c) := by
  unfold apply_event
  rw [if_pos hk, hi]

/-- Shape of `apply_event` on a created/updated issue event with no
embedded `issue` payload: no change. -/
theorem apply_event_issue_nopayload_eq (c : BeadsCache) (e : ActivityEvent)
    (iid : String)
    (hk : e.event_type = "issue.created" ∨ e.event_type = "issue.updated")
    (hi : e.issue_id = some iid) (hj : AssocMap.lookup e.extra "issue" = none) :
    apply_event c e = (Except.ok (), c) := by
  unfold apply_event
  rw [if_pos hk, hi, hj]

/-- Shape of `apply_event` on an `issue.deleted` event with a related
issue id: remove that key. -/
theorem apply_event_deleted_eq (c : BeadsCache) (e : ActivityEvent) (iid : String)
    (hk : e.event_type = "issue.deleted") (hi : e.issue_id = some iid) :
    apply_event c e =
      (Except.ok (), { c with issues := AssocMap.remove iid c.issues }) := by
  unfold apply_event
  rw [if_neg (by rw [hk]; decide), if_pos hk, hi]

/-- Shape of `apply_event` on an `issue.deleted` event with no related
issue id: no change. -/
theorem apply_event_deleted_noid_eq (c : BeadsCache) (e : ActivityEvent)
    (hk : e.event_type = "issue.deleted") (hi : e.issue_id = none) :
    apply_event c e = (Except.ok (), c) := by
  unfold apply_event
  rw [if_neg (by rw [hk]; decide), if_pos hk, hi]

/-- Shape of `apply_event` on a created/updated gate event whose embedded
payload decodes: upsert under the event's `gate_id`. -/
theorem apply_event_gate_upsert_eq (c : BeadsCache) (e : ActivityEvent)
    (gid : String) (j : Json) (g : Gate)
    (hk : e.event_type = "gate.created" ∨ e.event_type = "gate.updated")
    (hg : e.gate_id = some gid) (hj : AssocMap.lookup e.extra "gate" = some j)
    (hd : decodeGate j = some g) :
    apply_event c e =
      (Except.ok (), { c with gates := AssocMap.insert gid g c.gates }) := by
  unfold apply_event
  rcases hk with hk | hk <;>
    rw [if_neg (by rw [hk]; decide), if_neg (by rw [hk]; decide),
      if_pos (by rw [hk]; decide), hg, hj] <;>
    simp only [hd]

/-- Shape of `apply_event` on a created/updated gate event that does not
end in an upsert (no gate id, no payload, or a payload that fails to
decode): no change. -/
theorem apply_event_gate_nochange_eq (c : BeadsCache) (e : ActivityEvent)
    (hk : e.event_type = "gate.created" ∨ e.event_type = "gate.updated")
    (hrest : e.gate_id = none ∨ AssocMap.lookup e.extra "gate" = none ∨
      (∃ j, AssocMap.lookup e.extra "gate" = some j ∧ decodeGate j = none)) :
    apply_event c e = (Except.ok (), c) := by
  unfold apply_event
  rcases hk with hk | hk <;>
    rw [if_neg (by rw [hk]; decide), if_neg (by rw [hk]; decide),
      if_pos (by rw [hk]; decide)] <;>
  · rcases hrest with hg | hj | ⟨j, hj, hd⟩
    · rw [hg]
    · cases hg : e.gate_id with
      | none => rfl
      | some gid => simp only [hj]
    · cases hg : e.gate_id with
      | none => rfl
      | some gid => simp only [hj, hd]

/-- Shape of `apply_event` on a `gate.deleted` event with a gate id:
remove that key. -/
theorem apply_event_gate_deleted_eq (c : BeadsCache) (e : ActivityEvent)
    (gid : String) (hk : e.event_type = "gate.deleted") (hg : e.gate_id = some gid) :
    apply_event c e =
      (Except.ok (), { c with gates := AssocMap.remove gid c.gates }) := by
  unfold apply_event
  rw [if_neg (by rw [hk]; decide), if_neg (by rw [hk]; decide),
    if_neg (by rw [hk]; decide), if_pos hk, hg]

/-- Shape of `apply_event` on a `gate.deleted` event with no gate id: no
change. -/
theorem apply_event_gate_deleted_noid_eq (c : BeadsCache) (e : ActivityEvent)
    (hk : e.event_type = "gate.deleted") (hg : e.gate_id = none) :
    apply_event c e = (Except.ok (), c) := by
  unfold apply_event
  rw [if_neg (by rw [hk]; decide), if_neg (by rw [hk]; decide),
    if_neg (by rw [hk]; decide), if_pos hk, hg]

/-- Shape of `apply_event` on an unrecognized event kind: no change. -/
theorem apply_event_unknown_eq (c : BeadsCache) (e : ActivityEvent)
    (h1 : ¬(e.event_type = "issue.created" ∨ e.event_type = "issue.updated"))
    (h2 : e.event_type ≠ "issue.deleted")
    (h3 : ¬(e.event_type = "gate.created" ∨ e.event_type = "gate.updated"))
    (h4 : e.event_type ≠ "gate.deleted") :
    apply_event c e = (Except.ok (), c) := by
  unfold apply_event
  rw [if_neg h1, if_neg h2, if_neg h3, if_neg h4]

/-- Exhaustive characterization of `apply_event`: it always reports
success, and the new cache is the old one, an issue upsert at the event's
issue id, an issue removal at the event's issue id, a gate upsert at the
event's gate id, or a gate removal at the event's gate id. -/
theorem apply_event_cases (c : BeadsCache) (e : ActivityEvent) :
    apply_event c e = (Except.ok (), c) ∨
    (∃ iid it, ((e.event_type = "issue.created" ∨ e.event_type = "issue.updated") ∧
        e.issue_id = some iid) ∧
      apply_event c e =
        (Except.ok (), { c with issues := AssocMap.insert iid it c.issues })) ∨
    (∃ iid, e.event_type = "issue.deleted" ∧ e.issue_id = some iid ∧
      apply_event c e =
        (Except.ok (), { c with issues := AssocMap.remove iid c.issues })) ∨
    (∃ gid g, ((e.event_type = "gate.created" ∨ e.event_type = "gate.updated") ∧
        e.gate_id = some gid) ∧
      apply_event c e =
        (Except.ok (), { c with gates := AssocMap.insert gid g c.gates })) ∨
    (∃ gid, e.event_type = "gate.deleted" ∧ e.gate_id = some gid ∧
      apply_event c e =
        (Except.ok (), { c with gates := AssocMap.remove gid c.gates })) := by
  by_cases h1 : e.event_type = "issue.created" ∨ e.event_type = "issue.updated"
  · cases hi : e.issue_id with
    | none => exact Or.inl (apply_event_issue_noid_eq c e h1 hi)
    | some iid =>
      cases hj : AssocMap.lookup e.extra "issue" with
      | none => exact Or.inl (apply_event_issue_nopayload_eq c e iid h1 hi hj)
      | some j =>
        cases hd : decodeIssue j with
        | none => exact Or.inl (apply_event_issue_decode_fail_eq c e iid j h1 hi hj hd)
        | some it =>
          exact Or.inr (Or.inl
            ⟨iid, it, ⟨h1, rfl⟩, apply_event_issue_upsert_eq c e iid j it h1 hi hj hd⟩)
  · by_cases h2 : e.event_type = "issue.deleted"
    · cases hi : e.issue_id with
      | none => exact Or.inl (apply_event_deleted_noid_eq c e h2 hi)
      | some iid =>
        exact Or.inr (Or.inr (Or.inl
          ⟨iid, h2, rfl, apply_event_deleted_eq c e iid h2 hi⟩))
    · by_cases h3 : e.event_type = "gate.created" ∨ e.event_type = "gate.updated"
      · cases hg : e.gate_id with
        | none => exact Or.inl (apply_event_gate_nochange_eq c e h3 (Or.inl hg))
        | some gid =>
          cases hj : AssocMap.lookup e.extra "gate" with
          | none =>
            exact Or.inl (apply_event_gate_nochange_eq c e h3 (Or.inr (Or.inl hj)))
          | some j =>
            cases hd : decodeGate j with
            | none =>
              exact Or.inl
                (apply_event_gate_nochange_eq c e h3 (Or.inr (Or.inr ⟨j, hj, hd⟩)))
            | some g =>
              exact Or.inr (Or.inr (Or.inr (Or.inl
                ⟨gid, g, ⟨h3, rfl⟩, apply_event_gate_upsert_eq c e gid j g h3 hg hj hd⟩)))
      · by_cases h4 : e.event_type = "gate.deleted"
        · cases hg : e.gate_id with
          | none => exact Or.inl (apply_event_gate_deleted_noid_eq c e h4 hg)
          | some gid =>
            exact Or.inr (Or.inr (Or.inr (Or.inr
              ⟨gid, h4, rfl, apply_event_gate_deleted_eq c e gid h4 hg⟩)))
        · exact Or.inl (apply_event_unknown_eq c e h1 h2 h3 h4)

/-- Lifting an `apply_event` equation to the system state. -/
theorem apply_event_sys_eq (s : Sys) (e : ActivityEvent) (c' : BeadsCache)
    (h : apply_event s.cache e = (Except.ok (), c')) :
    apply_event_sys s e = (Except.ok (), { cache := c', disk := s.disk }) := by
  unfold apply_event_sys
  rw [h]

/-- C6: `apply_event` always reports success, never writes to disk, never
touches `last_full_sync` or the epic map, and modifies at most the single
entity the event names — every other issue key, and every other gate key,
reads the same afterward; an `issue.deleted` event for an identifier not
present leaves the whole state unchanged. -/
theorem apply_event_frame (s : Sys) (e : ActivityEvent) :
    (apply_event_sys s e).1 = Except.ok () ∧
    (apply_event_sys s e).2.disk = s.disk ∧
    (apply_event_sys s e).2.cache.last_full_sync = s.cache.last_full_sync ∧
    (apply_event_sys s e).2.cache.epics = s.cache.epics ∧
    (∀ k, ¬((e.event_type = "issue.created" ∨ e.event_type = "issue.updated" ∨
        e.event_type = "issue.deleted") ∧ e.issue_id = some k) →
      AssocMap.lookup (apply_event_sys s e).2.cache.issues k =
        AssocMap.lookup s.cache.issues k) ∧
    (∀ k, ¬((e.event_type = "gate.created" ∨ e.event_type = "gate.updated" ∨
        e.event_type = "gate.deleted") ∧ e.gate_id = some k) →
      AssocMap.lookup (apply_event_sys s e).2.cache.gates k =
        AssocMap.lookup s.cache.gates k) ∧
    (e.event_type = "issue.deleted" → ∀ iid, e.issue_id = some iid →
      AssocMap.lookup s.cache.issues iid = none → (apply_event_sys s e).2 = s) := by
  rcases apply_event_cases s.cache e with h | ⟨iid, it, ⟨hk, hi⟩, h⟩ |
    ⟨iid, hdel, hi, h⟩ | ⟨gid, g, ⟨hk, hg⟩, h⟩ | ⟨gid, hdel, hg, h⟩
  · rw [apply_event_sys_eq s e _ h]
    exact ⟨rfl, rfl, rfl, rfl, fun k _ => rfl, fun k _ => rfl, fun _ _ _ _ => rfl⟩
  · rw [apply_event_sys_eq s e _ h]
    refine ⟨rfl, rfl, rfl, rfl, ?_, fun k _ => rfl, ?_⟩
    · intro k hnk
      have hkind : e.event_type = "issue.created" ∨ e.event_type = "issue.updated" ∨
          e.event_type = "issue.deleted" := by
        rcases hk with hk' | hk'
        · exact Or.inl hk'
        · exact Or.inr (Or.inl hk')
      have hkne : k ≠ iid := fun hke => hnk ⟨hkind, by rw [hi, hke]⟩
      exact AssocMap.lookup_insert_ne s.cache.issues iid k it hkne
    · intro hd
      rcases hk with hk' | hk' <;> exact absurd (hk'.symm.trans hd) (by decide)
  · rw [apply_event_sys_eq s e _ h]
    refine ⟨rfl, rfl, rfl, rfl, ?_, fun k _ => rfl, ?_⟩
    · intro k hnk
      have hkne : k ≠ iid :=
        fun hke => hnk ⟨Or.inr (Or.inr hdel), by rw [hi, hke]⟩
      exact AssocMap.lookup_remove_ne s.cache.issues iid k hkne
    · intro _ iid' hi' hnone
      have hiid : iid = iid' := Option.some.inj ((hi.symm.trans hi'))
      have hrm : AssocMap.remove iid s.cache.issues = s.cache.issues :=
        AssocMap.remove_of_lookup_none s.cache.issues iid (hiid ▸ hnone)
      rw [hrm]
  · rw [apply_event_sys_eq s e _ h]
    refine ⟨rfl, rfl, rfl, rfl, fun k _ => rfl, ?_, ?_⟩
    · intro k hnk
      have hkind : e.event_type = "gate.created" ∨ e.event_type = "gate.updated" ∨
          e.event_type = "gate.deleted" := by
        rcases hk with hk' | hk'
        · exact Or.inl hk'
        · exact Or.inr (Or.inl hk')
      have hkne : k ≠ gid := fun hke => hnk ⟨hkind, by rw [hg, hke]⟩
      exact AssocMap.lookup_insert_ne s.cache.gates gid k g hkne
    · intro hd
      rcases hk with hk' | hk' <;> exact absurd (hk'.symm.trans hd) (by decide)
  · rw [apply_event_sys_eq s e _ h]
    refine ⟨rfl, rfl, rfl, rfl, fun k _ => rfl, ?_, ?_⟩
    · intro k hnk
      have hkne : k ≠ gid :=
        fun hke => hnk ⟨Or.inr (Or.inr hdel), by rw [hg, hke]⟩
      exact AssocMap.lookup_remove_ne s.cache.gates gid k hkne
    · intro hd
      exact absurd (hdel.symm.trans hd) (by decide)

/-- The `issue.deleted` event of the C6 witness: its identifier is absent
from the empty store. -/
def evDel : ActivityEvent :=
  { event_type := "issue.deleted", issue_id := some "TASK-1", gate_id := none,
    timestamp := "t", extra := [] }

/-- C6 witness: deleting an absent identifier reports success, reads of
other identifiers are unchanged, and the whole state is exactly what it
was. -/
theorem apply_event_frame_witness :
    (apply_event_sys sys0 evDel).1 = Except.ok () ∧
    AssocMap.lookup (apply_event_sys sys0 evDel).2.cache.issues "OTHER" =
      AssocMap.lookup sys0.cache.issues "OTHER" ∧
    AssocMap.lookup (apply_event_sys sys0 evDel).2.cache.gates "G" =
      AssocMap.lookup sys0.cache.gates "G" ∧
    (apply_event_sys sys0 evDel).2 = sys0 :=
  ⟨(apply_event_frame sys0 evDel).1,
   (apply_event_frame sys0 evDel).2.2.2.2.1 "OTHER" (by decide),
   (apply_event_frame sys0 evDel).2.2.2.2.2.1 "G" (by decide),
   (apply_event_frame sys0 evDel).2.2.2.2.2.2 rfl "TASK-1" rfl rfl⟩

/-- C8: `build_dag` never errors, and every edge of the resulting graph is
either a gate edge (owning item → its gate) or a dependency edge whose
endpoints are both present as work items in the snapshot, directed from
the prerequisite (a declared dependency of the target item) to the
dependent. A dependency reference to an absent identifier therefore never
yields an edge. The hypothesis states the snapshot's keying invariant:
every stored item sits under its own identifier. -/
theorem build_dag_dep_edges_endpoints (b : DagBuilder) (epic_id : String)
    (hwk : ∀ p ∈ b.issues, (p.2 : Issue).id = p.1) :
    ∃ g, build_dag b epic_id = Except.ok g ∧
      ∀ e ∈ g.edges, e ∈ gateEdgesOf b epic_id ∨
        (e.edge_type = EdgeType.Blocks ∧
         AssocMap.contains b.issues e.source = true ∧
         AssocMap.contains b.issues e.target = true ∧
         ∃ it, (e.target, it) ∈ b.issues ∧ e.source ∈ it.dependency_ids) := by
  refine ⟨_, rfl, ?_⟩
  intro e he
  rcases List.mem_append.mp he with he | he
  · right
    rcases List.mem_flatMap.mp he with ⟨issue, hmem, hedge⟩
    have hval : issue ∈ b.issues.map (fun p => p.2) :=
      (List.mem_filter.mp hmem).1
    rcases List.mem_map.mp hval with ⟨p, hp, hpe⟩
    rcases List.mem_filterMap.mp hedge with ⟨v, hv, hsome⟩
    cases hdep : dependencyIdOf v with
    | none => simp [hdep] at hsome
    | some dep_id =>
      simp only [hdep] at hsome
      cases hcont : AssocMap.contains b.issues dep_id with
      | false => simp [hcont] at hsome
      | true =>
        simp only [hcont, if_pos] at hsome
        have he' := Option.some.inj hsome
        subst he'
        have hid : issue.id = p.1 := hpe ▸ hwk p hp
        have hmem' : (issue.id, issue) ∈ b.issues := by
          rw [hid, ← hpe]
          exact hp
        refine ⟨rfl, hcont, ?_, issue, hmem', ?_⟩
        · exact AssocMap.lookup_isSome_of_mem b.issues issue.id issue hmem'
        · exact List.mem_filterMap.mpr ⟨v, hv, hdep⟩
  · left
    exact he

/-- A member of epic `E` with one known and one unknown dependency. -/
def issueT2 : Issue :=
  { id := "T2", title := "Task 2", status := "open", priority := none,
    labels := [], dependencies := [Json.str "T1", Json.str "MISSING"],
    assignee := none, owner := none, issue_type := some "Task",
    extra := [("epic_id", Json.str "E")] }

/-- A dependency-free member of epic `E`. -/
def issueT1 : Issue :=
  { id := "T1", title := "Task 1", status := "open", priority := none,
    labels := [], dependencies := [], assignee := none, owner := none,
    issue_type := some "Task", extra := [("epic_id", Json.str "E")] }

/-- The C8 witness snapshot: two well-keyed items, one dangling
dependency reference. -/
def builder8 : DagBuilder :=
  { issues := [("T1", issueT1), ("T2", issueT2)], gates := [], epics := [] }

/-- C8 witness: the concrete snapshot satisfies the keying invariant and
the theorem applies to it. -/
theorem build_dag_dep_edges_endpoints_witness :
    ∃ g, build_dag builder8 "E" = Except.ok g ∧
      ∀ e ∈ g.edges, e ∈ gateEdgesOf builder8 "E" ∨
        (e.edge_type = EdgeType.Blocks ∧
         AssocMap.contains builder8.issues e.source = true ∧
         AssocMap.contains builder8.issues e.target = true ∧
         ∃ it, (e.target, it) ∈ builder8.issues ∧ e.source ∈ it.dependency_ids) :=
  build_dag_dep_edges_endpoints builder8 "E" (by decide)
